import Mathlib

/-
Verification of the client-side router in src/assets/js/router.js.

The router intercepts clicks on internal links, maps clean URL paths to
static .html files, fetches them, splices a content fragment into the live
document, and keeps the browser history in sync.  The embedding below
translates each method of the Router class into a Lean function.  Browser
built-ins (DOMParser, the URL constructor, fetch) are modelled abstractly:
a parse function is passed as a parameter where the code calls DOMParser,
and the network is a function from file names to optional responses.
Strings are compared and transformed on their underlying character lists so
that every definition reduces in the kernel.
-/

namespace Router

/-- Boolean test that the first list is an initial segment of the second,
mirroring the JavaScript startsWith check character by character. -/
def leadsWith : List Char → List Char → Bool
  | [], _ => true
  | _ :: _, [] => false
  | p :: ps, c :: cs => p == c && leadsWith ps cs

/-- Embedding of the JavaScript String startsWith method. -/
def strStarts (s pat : String) : Bool :=
  leadsWith pat.data s.data

/-- Helper for substring search: scans the list for a position where the
pattern is an initial segment. -/
def subAux (p : List Char) : List Char → Bool
  | [] => leadsWith p []
  | c :: cs => leadsWith p (c :: cs) || subAux p cs

/-- Embedding of the JavaScript String includes method: true when the
pattern occurs as a contiguous substring. -/
def containsSub (s pat : String) : Bool :=
  subAux pat.data s.data

/-- Embedding of the JavaScript slice operation dropping characters from
the front of a string. -/
def strDrop (s : String) (n : Nat) : String :=
  ⟨s.data.drop n⟩

/-- Embedding of the JavaScript idiom split on the regex [?#] followed by
taking element zero: the part of the string before the first question mark
or hash character. -/
def beforeQueryFrag (s : String) : String :=
  ⟨s.data.takeWhile (fun c => !(c == '?' || c == '#'))⟩

/-- Embedding of Router.pathToHtmlFile from src/assets/js/router.js lines
151 to 164: remove a leading slash, send the empty remainder or a lone
slash remainder to index.html, otherwise cut at the first question mark or
hash and append the .html extension. -/
def pathToHtmlFile (path : String) : String :=
  let cleanPath := if strStarts path "/" then strDrop path 1 else path
  if cleanPath == "" || cleanPath == "/" then "index.html"
  else beforeQueryFrag cleanPath ++ ".html"

/-- Restatement of the path mapping exactly as the specification words it:
strip a leading slash; if the remaining string is empty, target index.html;
otherwise strip any trailing query or fragment suffix and append .html.
Written only to be compared with pathToHtmlFile. -/
def pathToHtmlFileSpec (path : String) : String :=
  let rest := if strStarts path "/" then strDrop path 1 else path
  if rest = "" then "index.html"
  else beforeQueryFrag rest ++ ".html"

/-- Amended restatement of the path mapping: as pathToHtmlFileSpec, except
that a remainder consisting of a single slash is also sent to index.html. -/
def pathToHtmlFileSpecAmended (path : String) : String :=
  let rest := if strStarts path "/" then strDrop path 1 else path
  if rest = "" ∨ rest = "/" then "index.html"
  else beforeQueryFrag rest ++ ".html"

/-- Model of an anchor element as the router reads it: the raw href
attribute (none when the attribute is absent) and the raw target
attribute. -/
structure Anchor where
  href : Option String
  target : Option String
deriving DecidableEq

/-- Embedding of Router.isInternalLink from src/assets/js/router.js lines
246 to 257.  The JavaScript guard for a missing href is falsiness, so an
empty href attribute is also rejected; the external-link check rejects an
href that starts with http and does not contain the current origin as a
substring; then come the hash, mailto, tel and target checks. -/
def isInternalLink (origin : String) (link : Anchor) : Bool :=
  match link.href with
  | none => false
  | some href =>
    if href == "" then false
    else if strStarts href "http" && !containsSub href origin then false
    else if strStarts href "#" then false
    else if strStarts href "mailto:" || strStarts href "tel:" then false
    else if link.target == some "_blank" then false
    else true

/-- Host portion of a URL remainder: characters up to the first slash,
question mark or hash. -/
def hostPart (l : List Char) : List Char :=
  l.takeWhile (fun c => !(c == '/' || c == '?' || c == '#'))

/-- Model of the browser notion of the origin of an absolute http or https
URL: the scheme together with the host portion.  Returns none for anything
that is not an absolute http or https URL. -/
def hrefOrigin (href : String) : Option String :=
  if strStarts href "http://" then
    some ("http://" ++ String.mk (hostPart (href.data.drop 7)))
  else if strStarts href "https://" then
    some ("https://" ++ String.mk (hostPart (href.data.drop 8)))
  else none

/-- Restatement from the specification wording: the href is an absolute URL
pointing to a different origin.  Written only to be compared with the code
side check in isInternalLink. -/
def pointsToDifferentOrigin (origin href : String) : Bool :=
  match hrefOrigin href with
  | some o => !(o == origin)
  | none => false

/-- Restatement of internal-link classification exactly as the
specification words it: the anchor has an href, the href is not an
absolute URL pointing to a different origin, does not start with a hash,
does not use a mailto or tel scheme, and the target is not underscore
blank.  Written only to be compared with isInternalLink. -/
def isInternalLinkSpec (origin : String) (link : Anchor) : Bool :=
  match link.href with
  | none => false
  | some href =>
    !(pointsToDifferentOrigin origin href) &&
    !(strStarts href "#") &&
    !(strStarts href "mailto:" || strStarts href "tel:") &&
    !(link.target == some "_blank")

/-- Result of parsing a fetched HTML string with DOMParser, abstracted to
the four queries the router performs on it: the inner markup of the
element matching the content selector, the title text, the canonical link
target and the Open Graph URL value, each none when the element is
absent. -/
structure ParsedDoc where
  container : Option String
  title : Option String
  canonical : Option String
  ogUrl : Option String
deriving DecidableEq

/-- A DOM parse is a function from HTML strings to parsed documents; the
router calls it wherever the code constructs a DOMParser. -/
def DomParse : Type := String → ParsedDoc

/-- Embedding of the ROUTER_CONFIG record from src/assets/js/router.js
lines 10 to 17, parameterised by the window location origin. -/
structure RouterConfig where
  baseUrl : String
  contentSelector : String
  loadingClass : String
deriving DecidableEq

/-- The configuration record with the literal selector and class names of
the source. -/
def ROUTER_CONFIG (origin : String) : RouterConfig :=
  { baseUrl := origin, contentSelector := "#page-wrapper", loadingClass := "is-loading" }

/-- The live document as the router mutates it: the content container
inner markup (none when the container element is absent), the title, the
canonical link target and Open Graph URL (none when the element is
absent), and the class list of the body element. -/
structure Doc where
  containerHTML : Option String
  title : String
  canonical : Option String
  ogUrl : Option String
  bodyClasses : List String
deriving DecidableEq

/-- A history entry pushed by the router: the state payload path and the
visible URL. -/
structure HistoryEntry where
  path : String
  url : String
deriving DecidableEq

/-- The tab-local router state: the recorded current path, the live
document, the history stack, and the location href once a fallback
navigation has been assigned. -/
structure RouterState where
  currentPath : String
  doc : Doc
  history : List HistoryEntry
  locationHref : Option String
deriving DecidableEq

/-- A fetch response: the ok flag for the HTTP status and the body text. -/
structure FetchResponse where
  ok : Bool
  body : String
deriving DecidableEq

/-- The network maps a requested file name to a response, or none when the
fetch itself fails. -/
def Network : Type := String → Option FetchResponse

/-- Observable effects emitted by the content loader, recorded as a trace:
a network fetch, the scroll to top, a history push, and an assignment to
the window location for the fallback navigation. -/
inductive Effect where
  | fetch (file : String)
  | scrollTop
  | pushState (path url : String)
  | assignLocation (file : String)
deriving DecidableEq

/-- Embedding of classList.add: append the class when it is not already
present. -/
def classAdd (classes : List String) (c : String) : List String :=
  if c ∈ classes then classes else classes ++ [c]

/-- Embedding of classList.remove: drop every occurrence of the class. -/
def classRemove (classes : List String) (c : String) : List String :=
  classes.filter (fun x => !(x == c))

/-- Embedding of Router.extractContent from src/assets/js/router.js lines
171 to 177: the inner markup of the content container of the parsed
document when present, the whole HTML string otherwise. -/
def extractContent (parse : DomParse) (html : String) : String :=
  match (parse html).container with
  | some inner => inner
  | none => html

/-- Embedding of Router.extractTitle from src/assets/js/router.js lines
184 to 190: the title text of the parsed document, or none. -/
def extractTitle (parse : DomParse) (html : String) : Option String :=
  (parse html).title

/-- Removal of the first occurrence of a pattern from a character list,
the model of the JavaScript replace method with a plain string pattern and
an empty replacement. -/
def replFirst (p : List Char) : List Char → List Char
  | [] => []
  | c :: cs => if leadsWith p (c :: cs) then (c :: cs).drop p.length else c :: replFirst p cs

/-- Embedding of the JavaScript call replace with a plain string pattern
and the empty string as replacement: the first occurrence of the pattern
is removed, everything else is kept. -/
def stripFirst (s pat : String) : String :=
  ⟨replFirst pat.data s.data⟩

/-- Embedding of Router.updateMetaTags from src/assets/js/router.js lines
196 to 217: the canonical link target and the Open Graph URL of the live
document are each overwritten with the fetched value stripped of its first
occurrence of .html, and only when both the fetched document and the live
document carry the element. -/
def updateMetaTags (parse : DomParse) (html : String) (d : Doc) : Doc :=
  let pd := parse html
  let d1 :=
    match pd.canonical, d.canonical with
    | some c, some _ => { d with canonical := some (stripFirst c ".html") }
    | _, _ => d
  match pd.ogUrl, d1.ogUrl with
  | some o, some _ => { d1 with ogUrl := some (stripFirst o ".html") }
  | _, _ => d1

/-- The finally block of Router.loadContent: remove the loading class from
the body class list on every exit path. -/
def finallyCleanup (cfg : RouterConfig) (s : RouterState) : RouterState :=
  { s with doc := { s.doc with bodyClasses := classRemove s.doc.bodyClasses cfg.loadingClass } }

/-- Embedding of Router.loadContent from src/assets/js/router.js lines 94
to 144.  The path is mapped to its html file, the loading class is added,
the file is fetched; on success the container markup, title and meta tags
are updated and a history entry is pushed when requested; on a failed
fetch or a response that is not ok the location is assigned to the html
file; the loading class is removed on every exit path.  The returned
trace records the fetch, the scroll, the history push and the location
assignment. -/
def loadContent (parse : DomParse) (cfg : RouterConfig) (net : Network)
    (s : RouterState) (path : String) (updateHistory : Bool) :
    RouterState × List Effect :=
  let htmlFile := pathToHtmlFile path
  let sLoading : RouterState :=
    { s with doc := { s.doc with bodyClasses := classAdd s.doc.bodyClasses cfg.loadingClass } }
  match net htmlFile with
  | none =>
    (finallyCleanup cfg { sLoading with locationHref := some htmlFile },
     [Effect.fetch htmlFile, Effect.assignLocation htmlFile])
  | some resp =>
    if resp.ok then
      let html := resp.body
      let newContent := extractContent parse html
      let d1 :=
        match sLoading.doc.containerHTML with
        | some _ => { sLoading.doc with containerHTML := some newContent }
        | none => sLoading.doc
      let d2 :=
        match extractTitle parse html with
        | some t => if t == "" then d1 else { d1 with title := t }
        | none => d1
      let d3 := updateMetaTags parse html d2
      let hist :=
        if updateHistory then
          sLoading.history ++ [{ path := path, url := cfg.baseUrl ++ path }]
        else sLoading.history
      let tr :=
        [Effect.fetch htmlFile, Effect.scrollTop] ++
          (if updateHistory then [Effect.pushState path (cfg.baseUrl ++ path)] else [])
      (finallyCleanup cfg { sLoading with doc := d3, history := hist }, tr)
    else
      (finallyCleanup cfg { sLoading with locationHref := some htmlFile },
       [Effect.fetch htmlFile, Effect.assignLocation htmlFile])

/-- Embedding of Router.navigate from src/assets/js/router.js lines 82 to
87: a path equal to the recorded current path returns immediately with no
effects; otherwise the current path is overwritten first and the content
loader runs with history update enabled. -/
def navigate (parse : DomParse) (cfg : RouterConfig) (net : Network)
    (s : RouterState) (path : String) : RouterState × List Effect :=
  if path = s.currentPath then (s, [])
  else loadContent parse cfg net { s with currentPath := path } path true

/-- Embedding of Router.getExpectedTitle from src/assets/js/router.js
lines 286 to 296: the four entry title map with the generic site name as
fallback. -/
def getExpectedTitle (path : String) : String :=
  if path == "/" then
    "GIFT Canada - Registered Canadian Charity | Toronto Non-Profit Organization"
  else if path == "/donate" then
    "Donate to GIFT Canada - Support Humanitarian Aid & Medical Missions"
  else if path == "/mission" then
    "GIFT Canada - GIFT Vision & Mission"
  else if path == "/get-involved" then
    "GIFT Canada - Get Involved"
  else "GIFT Canada"

/-- Embedding of Router.handleInitialLoad from src/assets/js/router.js
lines 62 to 76, as the content loader invocation it decides on: some
(path, false) exactly when the path is not the root, contains neither
.html nor a hash, and the actual document title differs from the expected
title. -/
def handleInitialLoadCall (path actualTitle : String) : Option (String × Bool) :=
  if path == "/" then none
  else if containsSub path ".html" then none
  else if containsSub path "#" then none
  else if actualTitle == getExpectedTitle path then none
  else some (path, false)

/-- Embedding of the popstate listener from src/assets/js/router.js lines
52 to 56, as the content loader invocation it decides on: the event state
path is modelled as an optional string, and the JavaScript truthiness
guard also rejects an empty path. -/
def popstateHandler (statePath : Option String) : Option (String × Bool) :=
  match statePath with
  | none => none
  | some p => if p == "" then none else some (p, false)

/-- The URL object as the router uses it: only the pathname component. -/
structure UrlObj where
  pathname : String
deriving DecidableEq

/-- Embedding of Router.getPathFromUrl from src/assets/js/router.js lines
264 to 271, parameterised by the browser URL constructor: the pathname of
the parsed URL, or the input string unchanged when parsing throws. -/
def getPathFromUrl (urlParse : String → Option UrlObj) (url : String) : String :=
  match urlParse url with
  | some u => u.pathname
  | none => url

/-- Characters of a URL remainder after the host portion. -/
def afterHost (l : List Char) : List Char :=
  l.dropWhile (fun c => !(c == '/' || c == '?' || c == '#'))

/-- Pathname of a URL remainder: the part after the host and before any
query or fragment, defaulting to a single slash. -/
def urlPathname (l : List Char) : String :=
  let p := (afterHost l).takeWhile (fun c => !(c == '?' || c == '#'))
  if p.isEmpty then "/" else ⟨p⟩

/-- Model of the browser URL constructor restricted to absolute http and
https URLs: such URLs parse to their pathname, anything else throws,
modelled as none.  Used to instantiate getPathFromUrl on concrete
inputs. -/
def jsUrlParse (url : String) : Option UrlObj :=
  if strStarts url "http://" then some ⟨urlPathname (url.data.drop 7)⟩
  else if strStarts url "https://" then some ⟨urlPathname (url.data.drop 8)⟩
  else none

/-- Sample live document used to instantiate the state theorems. -/
def sampleDoc : Doc :=
  { containerHTML := some "old", title := "Old Title",
    canonical := some "https://x/index.html", ogUrl := some "https://x/index.html",
    bodyClasses := [] }

/-- Sample router state used to instantiate the state theorems. -/
def sampleState : RouterState :=
  { currentPath := "/", doc := sampleDoc, history := [], locationHref := none }

/-- Sample DOM parse used to instantiate the state theorems: every page
parses to a document whose container holds the raw HTML and whose
metadata points at the donate page. -/
def sampleParse : DomParse := fun html =>
  { container := some html, title := some "New Title",
    canonical := some "https://x/donate.html", ogUrl := some "https://x/donate.html" }

/-- Sample configuration with origin https colon slash slash x. -/
def sampleCfg : RouterConfig := ROUTER_CONFIG "https://x"

/-- Network on which every fetch resolves with an HTTP error status. -/
def failNet : Network := fun _ => some { ok := false, body := "" }

/-- Network on which every fetch succeeds with body Hello. -/
def okNet : Network := fun _ => some { ok := true, body := "Hello" }

end Router

/-- C1 counterexample: on the input consisting of two slashes the code
returns index.html while the claimed description, which sends only an empty
remainder to index.html, yields the string slash dot html. -/
theorem c1_pathToHtmlFile_counterexample :
    Router.pathToHtmlFile "//" = "index.html" ∧
    Router.pathToHtmlFileSpec "//" = "/.html" := by
  constructor <;> rfl

/-- C1 amended: the path mapping strips a leading slash, returns index.html
when the remainder is empty or a single slash, and otherwise strips any
trailing query or fragment suffix and appends .html; in particular the five
listed example paths map as claimed. -/
theorem c1_pathToHtmlFile_amended :
    (∀ path, Router.pathToHtmlFile path = Router.pathToHtmlFileSpecAmended path) ∧
    Router.pathToHtmlFile "/" = "index.html" ∧
    Router.pathToHtmlFile "" = "index.html" ∧
    Router.pathToHtmlFile "/donate" = "donate.html" ∧
    Router.pathToHtmlFile "/donate?ref=x" = "donate.html" ∧
    Router.pathToHtmlFile "/get-involved#team" = "get-involved.html" := by
  refine ⟨?_, rfl, rfl, rfl, rfl, rfl⟩
  intro path
  unfold Router.pathToHtmlFile Router.pathToHtmlFileSpecAmended
  simp only [Bool.or_eq_true, beq_iff_eq]

/-- C2 counterexample: with origin https colon slash slash x, an anchor
whose href is an absolute URL on the origin evil.com that merely repeats
the current origin inside its query string points to a different origin
yet is classified internal by the code; and an anchor whose href attribute
is present but empty satisfies every condition of the claimed
characterisation yet is classified as not internal. -/
theorem c2_isInternalLink_counterexample :
    Router.isInternalLink "https://x" ⟨some "https://evil.com/?u=https://x", none⟩ = true ∧
    Router.pointsToDifferentOrigin "https://x" "https://evil.com/?u=https://x" = true ∧
    Router.isInternalLinkSpec "https://x" ⟨some "https://evil.com/?u=https://x", none⟩ = false ∧
    Router.isInternalLink "https://x" ⟨some "", none⟩ = false ∧
    Router.isInternalLinkSpec "https://x" ⟨some "", none⟩ = true := by
  refine ⟨?_, ?_, ?_, ?_, ?_⟩ <;> decide

/-- Helper: on an anchor with a present href the if-chain of
isInternalLink computes the conjunction of the negated exclusion tests. -/
theorem isInternalLink_some_eq (origin h : String) (target : Option String) :
    Router.isInternalLink origin ⟨some h, target⟩ =
      (!(h == "") &&
       !(Router.strStarts h "http" && !Router.containsSub h origin) &&
       !(Router.strStarts h "#") &&
       !(Router.strStarts h "mailto:" || Router.strStarts h "tel:") &&
       !(target == some "_blank")) := by
  simp only [Router.isInternalLink]
  cases hq : (h == "") <;>
    cases ha : Router.strStarts h "http" <;>
    cases hb : Router.containsSub h origin <;>
    cases hc : Router.strStarts h "#" <;>
    cases hd : Router.strStarts h "mailto:" <;>
    cases he : Router.strStarts h "tel:" <;>
    cases hf : (target == some "_blank") <;>
    simp [hq, ha, hb, hc, hd, he, hf]

/-- C2 amended: isInternalLink classifies an anchor as internal if and
only if it has a non-empty href, the href does not both start with http
and lack the current origin as a substring, the href does not start with a
hash, the href does not start with mailto or tel, and the target attribute
is not underscore blank; in particular a same-origin anchor with href
slash mission is intercepted.  The different-origin test of the claim only
holds in this substring-heuristic form. -/
theorem c2_isInternalLink_amended :
    (∀ origin link, Router.isInternalLink origin link = true ↔
      (∃ h, link.href = some h ∧ h ≠ "" ∧
        ¬(Router.strStarts h "http" = true ∧ Router.containsSub h origin = false) ∧
        Router.strStarts h "#" = false ∧
        Router.strStarts h "mailto:" = false ∧
        Router.strStarts h "tel:" = false ∧
        link.target ≠ some "_blank")) ∧
    Router.isInternalLink "https://giftcanada.org" ⟨some "/mission", none⟩ = true := by
  constructor
  · intro origin link
    obtain ⟨href, target⟩ := link
    cases href with
    | none => simp [Router.isInternalLink]
    | some h =>
      rw [isInternalLink_some_eq]
      simp only [Bool.and_eq_true, Bool.not_eq_true', Bool.and_eq_false_iff,
        Bool.not_eq_false', Bool.or_eq_false_iff, beq_iff_eq, beq_eq_false_iff_ne,
        ne_eq, Option.some.injEq, exists_eq_left']
      constructor
      · rintro ⟨⟨⟨⟨hne, hext⟩, hhash⟩, hmt⟩, htg⟩
        refine ⟨hne, ?_, hhash, hmt.1, hmt.2, htg⟩
        rintro ⟨ha, hb⟩
        rcases hext with h1 | h1
        · exact absurd ha (by simp [h1])
        · exact absurd hb (by simp [h1])
      · rintro ⟨hne, hext, hhash, hm, ht, htg⟩
        refine ⟨⟨⟨⟨hne, ?_⟩, hhash⟩, hm, ht⟩, htg⟩
        by_cases hh : Router.strStarts h "http" = true
        · right
          by_cases hc : Router.containsSub h origin = true
          · exact hc
          · exact absurd ⟨hh, by simp at hc; exact hc⟩ hext
        · left
          simp at hh
          exact hh
  · decide

/-- C3: navigating to the path currently recorded as active is a no-op:
the state, including the recorded current path and the live document, is
returned unchanged and the effect trace is empty, so in particular no
fetch and no history push occur. -/
theorem c3_navigate_idempotent (parse : Router.DomParse) (cfg : Router.RouterConfig)
    (net : Router.Network) (s : Router.RouterState) (path : String)
    (h : path = s.currentPath) :
    Router.navigate parse cfg net s path = (s, []) := by
  simp [Router.navigate, h]

/-- C3 witness: the idempotence theorem instantiated at the sample state,
whose recorded current path is the root. -/
theorem c3_navigate_idempotent_witness :
    Router.navigate Router.sampleParse Router.sampleCfg Router.okNet
      Router.sampleState "/" = (Router.sampleState, []) :=
  c3_navigate_idempotent Router.sampleParse Router.sampleCfg Router.okNet
    Router.sampleState "/" rfl

/-- Helper: the meta tag update never changes the container markup of the
live document. -/
theorem updateMetaTags_containerHTML (parse : Router.DomParse) (html : String) (d : Router.Doc) :
    (Router.updateMetaTags parse html d).containerHTML = d.containerHTML := by
  cases hcan : (parse html).canonical <;> cases hd : d.canonical <;>
    cases hog : (parse html).ogUrl <;> cases hdog : d.ogUrl <;>
    simp_all [Router.updateMetaTags]

/-- C4: the loading class is absent from the body class list after every
run of the content loader, whatever the network does; and when the fetch
resolves with a response whose status is not ok, the location href is
assigned the mapped html file. -/
theorem c4_loadContent_cleanup (parse : Router.DomParse) (cfg : Router.RouterConfig)
    (net : Router.Network) (s : Router.RouterState) (path : String) (uh : Bool) :
    cfg.loadingClass ∉ (Router.loadContent parse cfg net s path uh).1.doc.bodyClasses ∧
    (∀ resp, net (Router.pathToHtmlFile path) = some resp → resp.ok = false →
      (Router.loadContent parse cfg net s path uh).1.locationHref =
        some (Router.pathToHtmlFile path)) := by
  constructor
  · cases hnet : net (Router.pathToHtmlFile path) with
    | none =>
      simp [Router.loadContent, hnet, Router.finallyCleanup, Router.classRemove,
        List.mem_filter]
    | some resp =>
      cases hok : resp.ok <;>
        simp [Router.loadContent, hnet, hok, Router.finallyCleanup, Router.classRemove,
          List.mem_filter]
  · intro resp hresp hok
    simp [Router.loadContent, hresp, hok, Router.finallyCleanup]

/-- C4 witness: loading the donate path over a network that answers with
an error status leaves the body without the loading class and assigns the
location to donate.html. -/
theorem c4_loadContent_cleanup_witness :
    Router.sampleCfg.loadingClass ∉
      (Router.loadContent Router.sampleParse Router.sampleCfg Router.failNet
        Router.sampleState "/donate" true).1.doc.bodyClasses ∧
    (Router.loadContent Router.sampleParse Router.sampleCfg Router.failNet
      Router.sampleState "/donate" true).1.locationHref = some "donate.html" := by
  have h := c4_loadContent_cleanup Router.sampleParse Router.sampleCfg Router.failNet
    Router.sampleState "/donate" true
  exact ⟨h.1, h.2 { ok := false, body := "" } rfl rfl⟩

/-- C5: content extraction yields the container inner markup of the parsed
document when the container is present and the whole HTML string when it
is absent; and a successful load whose fetched page parses to a container
holding Hello leaves the live container holding exactly Hello. -/
theorem c5_extractContent_spec (parse : Router.DomParse) :
    (∀ html c, (parse html).container = some c → Router.extractContent parse html = c) ∧
    (∀ html, (parse html).container = none → Router.extractContent parse html = html) ∧
    (∀ (cfg : Router.RouterConfig) (net : Router.Network) (s : Router.RouterState)
        (path : String) (uh : Bool) (resp : Router.FetchResponse) (old : String),
      net (Router.pathToHtmlFile path) = some resp → resp.ok = true →
      (parse resp.body).container = some "Hello" →
      s.doc.containerHTML = some old →
      (Router.loadContent parse cfg net s path uh).1.doc.containerHTML = some "Hello") := by
  refine ⟨?_, ?_, ?_⟩
  · intro html c hc
    simp [Router.extractContent, hc]
  · intro html hc
    simp [Router.extractContent, hc]
  · intro cfg net s path uh resp old hnet hok hcont hold
    cases htit : (parse resp.body).title with
    | none =>
      simp [Router.loadContent, hnet, hok, hold, hcont, htit, Router.extractContent,
        Router.extractTitle, Router.finallyCleanup, updateMetaTags_containerHTML]
    | some t =>
      by_cases ht : t = "" <;>
        simp [Router.loadContent, hnet, hok, hold, hcont, htit, ht, beq_iff_eq,
          Router.extractContent, Router.extractTitle, Router.finallyCleanup,
          updateMetaTags_containerHTML]

/-- C5 witness: loading the donate path over the successful network with
the sample parse, on which the fetched body Hello parses to a container
holding Hello, leaves the live container holding exactly Hello. -/
theorem c5_extractContent_spec_witness :
    Router.extractContent Router.sampleParse "Hello" = "Hello" ∧
    (Router.loadContent Router.sampleParse Router.sampleCfg Router.okNet
      Router.sampleState "/donate" true).1.doc.containerHTML = some "Hello" := by
  have h := c5_extractContent_spec Router.sampleParse
  exact ⟨h.1 "Hello" "Hello" rfl,
    h.2.2 Router.sampleCfg Router.okNet Router.sampleState "/donate" true
      { ok := true, body := "Hello" } "old" rfl rfl rfl rfl⟩

/-- C6: the meta tag update overwrites the live canonical link with the
fetched canonical value stripped of its first occurrence of .html, and
likewise for the Open Graph URL, in each case only when both the fetched
and the live element exist, leaving the value unchanged otherwise; and
stripping turns the donate html URL into the clean donate URL. -/
theorem c6_updateMetaTags_spec (parse : Router.DomParse) :
    (∀ html d c old, (parse html).canonical = some c → d.canonical = some old →
      (Router.updateMetaTags parse html d).canonical =
        some (Router.stripFirst c ".html")) ∧
    (∀ (html : String) (d : Router.Doc),
      ((parse html).canonical = none ∨ d.canonical = none) →
      (Router.updateMetaTags parse html d).canonical = d.canonical) ∧
    (∀ html d o old, (parse html).ogUrl = some o → d.ogUrl = some old →
      (Router.updateMetaTags parse html d).ogUrl =
        some (Router.stripFirst o ".html")) ∧
    (∀ (html : String) (d : Router.Doc),
      ((parse html).ogUrl = none ∨ d.ogUrl = none) →
      (Router.updateMetaTags parse html d).ogUrl = d.ogUrl) ∧
    Router.stripFirst "https://x/donate.html" ".html" = "https://x/donate" := by
  refine ⟨?_, ?_, ?_, ?_, by decide⟩
  · intro html d c old hc hold
    cases hog : (parse html).ogUrl <;> cases hdog : d.ogUrl <;>
      simp_all [Router.updateMetaTags]
  · intro html d hnone
    rcases hnone with hn | hn <;>
      cases hcan : (parse html).canonical <;> cases hd : d.canonical <;>
      cases hog : (parse html).ogUrl <;> cases hdog : d.ogUrl <;>
      simp_all [Router.updateMetaTags]
  · intro html d o old ho hold
    cases hcan : (parse html).canonical <;> cases hd : d.canonical <;>
      simp_all [Router.updateMetaTags]
  · intro html d hnone
    rcases hnone with hn | hn <;>
      cases hcan : (parse html).canonical <;> cases hd : d.canonical <;>
      cases hog : (parse html).ogUrl <;> cases hdog : d.ogUrl <;>
      simp_all [Router.updateMetaTags]

/-- C6 witness: updating the sample document from a fetched page whose
canonical link and Open Graph URL point at donate.html rewrites both live
values to the clean donate URL. -/
theorem c6_updateMetaTags_spec_witness :
    (Router.updateMetaTags Router.sampleParse "page" Router.sampleDoc).canonical =
      some "https://x/donate" ∧
    (Router.updateMetaTags Router.sampleParse "page" Router.sampleDoc).ogUrl =
      some "https://x/donate" := by
  have h := c6_updateMetaTags_spec Router.sampleParse
  constructor
  · have h1 := h.1 "page" Router.sampleDoc "https://x/donate.html" "https://x/index.html" rfl rfl
    rw [h.2.2.2.2] at h1
    exact h1
  · have h3 := h.2.2.1 "page" Router.sampleDoc "https://x/donate.html" "https://x/index.html" rfl rfl
    rw [h.2.2.2.2] at h3
    exact h3

/-- C7: the initial-load reconciliation invokes the content loader, with
history update disabled and with the current path, exactly when the path
is not the root, contains neither .html nor a hash, and the actual title
differs from the expected title; the expected title comes from the four
entry table and falls back to the generic site name for any other path. -/
theorem c7_handleInitialLoad_spec :
    (∀ path title, Router.handleInitialLoadCall path title = some (path, false) ↔
      (path ≠ "/" ∧ Router.containsSub path ".html" = false ∧
       Router.containsSub path "#" = false ∧ title ≠ Router.getExpectedTitle path)) ∧
    (∀ path title r, Router.handleInitialLoadCall path title = some r → r = (path, false)) ∧
    Router.getExpectedTitle "/" =
      "GIFT Canada - Registered Canadian Charity | Toronto Non-Profit Organization" ∧
    Router.getExpectedTitle "/donate" =
      "Donate to GIFT Canada - Support Humanitarian Aid & Medical Missions" ∧
    Router.getExpectedTitle "/mission" = "GIFT Canada - GIFT Vision & Mission" ∧
    Router.getExpectedTitle "/get-involved" = "GIFT Canada - Get Involved" ∧
    (∀ path, path ∉ ["/", "/donate", "/mission", "/get-involved"] →
      Router.getExpectedTitle path = "GIFT Canada") := by
  refine ⟨?_, ?_, rfl, rfl, rfl, rfl, ?_⟩
  · intro path title
    unfold Router.handleInitialLoadCall
    split_ifs with h1 h2 h3 h4 <;> simp_all
  · intro path title r hr
    unfold Router.handleInitialLoadCall at hr
    split_ifs at hr <;> simp_all
  · intro path hmem
    simp only [List.mem_cons, List.mem_singleton, not_or] at hmem
    obtain ⟨h1, h2, h3, h4, _⟩ := hmem
    unfold Router.getExpectedTitle
    split_ifs with g1 g2 g3 g4 <;> simp_all

/-- C7 witness: a direct visit to the donate path with a stale title
triggers a reload without history update, and an unlisted path expects the
generic site name. -/
theorem c7_handleInitialLoad_spec_witness :
    Router.handleInitialLoadCall "/donate" "Stale" = some ("/donate", false) ∧
    Router.getExpectedTitle "/about" = "GIFT Canada" := by
  constructor
  · exact (c7_handleInitialLoad_spec.1 "/donate" "Stale").2
      ⟨by decide, by decide, by decide, by decide⟩
  · exact c7_handleInitialLoad_spec.2.2.2.2.2.2 "/about" (by decide)

/-- C8: a successful content load with history update requested appends
exactly one history entry whose state carries the clean path and whose
visible URL is the base URL concatenated with the path, and emits the push
effect; and the popstate handler on an event whose state carries that
path invokes the content loader with that path and history update
disabled. -/
theorem c8_push_popstate_roundtrip (parse : Router.DomParse) (cfg : Router.RouterConfig)
    (net : Router.Network) (s : Router.RouterState) (path : String)
    (resp : Router.FetchResponse) (hne : path ≠ "")
    (hnet : net (Router.pathToHtmlFile path) = some resp) (hok : resp.ok = true) :
    (Router.loadContent parse cfg net s path true).1.history =
      s.history ++ [{ path := path, url := cfg.baseUrl ++ path }] ∧
    (Router.loadContent parse cfg net s path true).2 =
      [Router.Effect.fetch (Router.pathToHtmlFile path), Router.Effect.scrollTop,
       Router.Effect.pushState path (cfg.baseUrl ++ path)] ∧
    Router.popstateHandler (some path) = some (path, false) := by
  refine ⟨?_, ?_, ?_⟩
  · simp [Router.loadContent, hnet, hok, Router.finallyCleanup]
  · simp [Router.loadContent, hnet, hok, Router.finallyCleanup]
  · simp [Router.popstateHandler, beq_iff_eq, hne]

/-- C8 witness: loading the donate path over the successful network pushes
the entry carrying the donate path with the full URL, and the popstate
handler hands that path back to the loader with history update disabled. -/
theorem c8_push_popstate_roundtrip_witness :
    (Router.loadContent Router.sampleParse Router.sampleCfg Router.okNet
      Router.sampleState "/donate" true).1.history =
      [{ path := "/donate", url := "https://x/donate" }] ∧
    Router.popstateHandler (some "/donate") = some ("/donate", false) := by
  have h := c8_push_popstate_roundtrip Router.sampleParse Router.sampleCfg Router.okNet
    Router.sampleState "/donate" { ok := true, body := "Hello" } (by decide) rfl rfl
  exact ⟨h.1, h.2.2⟩

/-- C9: getPathFromUrl returns the input string unchanged whenever URL
parsing fails, and the pathname component whenever parsing succeeds; on
the concrete URL constructor model, a relative href comes back unchanged
and an absolute URL yields its path component. -/
theorem c9_getPathFromUrl_spec (urlParse : String → Option Router.UrlObj) :
    (∀ url, urlParse url = none → Router.getPathFromUrl urlParse url = url) ∧
    (∀ url u, urlParse url = some u → Router.getPathFromUrl urlParse url = u.pathname) ∧
    Router.getPathFromUrl Router.jsUrlParse "/mission" = "/mission" ∧
    Router.getPathFromUrl Router.jsUrlParse "https://x/mission?a=1" = "/mission" := by
  refine ⟨?_, ?_, by decide, by decide⟩
  · intro url hnone
    simp [Router.getPathFromUrl, hnone]
  · intro url u hu
    simp [Router.getPathFromUrl, hu]

/-- C9 witness: a mailto href does not parse and is returned unchanged,
and an absolute URL with a bare host parses to the root pathname. -/
theorem c9_getPathFromUrl_spec_witness :
    Router.getPathFromUrl Router.jsUrlParse "mailto:info@giftcanada.org" =
      "mailto:info@giftcanada.org" ∧
    Router.getPathFromUrl Router.jsUrlParse "https://x" = "/" := by
  constructor
  · exact (c9_getPathFromUrl_spec Router.jsUrlParse).1 "mailto:info@giftcanada.org" (by decide)
  · exact (c9_getPathFromUrl_spec Router.jsUrlParse).2.1 "https://x" ⟨"/"⟩ (by decide)

/-- C10: navigating to a path different from the recorded one first
overwrites the recorded current path and then runs the content loader on
the already-updated state; the content loader never touches the recorded
current path on any of its exit paths, so after a navigation whose fetch
fails or returns an error status the recorded current path still equals
the failed target path. -/
theorem c10_currentPath_no_rollback (parse : Router.DomParse) (cfg : Router.RouterConfig)
    (net : Router.Network) (s : Router.RouterState) (path : String)
    (hne : path ≠ s.currentPath)
    (hfail : net (Router.pathToHtmlFile path) = none ∨
      ∃ resp, net (Router.pathToHtmlFile path) = some resp ∧ resp.ok = false) :
    Router.navigate parse cfg net s path =
      Router.loadContent parse cfg net { s with currentPath := path } path true ∧
    (∀ (s2 : Router.RouterState) (p2 : String) (uh : Bool),
      (Router.loadContent parse cfg net s2 p2 uh).1.currentPath = s2.currentPath) ∧
    (Router.navigate parse cfg net s path).1.currentPath = path := by
  have hpres : ∀ (s2 : Router.RouterState) (p2 : String) (uh : Bool),
      (Router.loadContent parse cfg net s2 p2 uh).1.currentPath = s2.currentPath := by
    intro s2 p2 uh
    cases hnet : net (Router.pathToHtmlFile p2) with
    | none => simp [Router.loadContent, hnet, Router.finallyCleanup]
    | some resp =>
      cases hok : resp.ok <;>
        simp [Router.loadContent, hnet, hok, Router.finallyCleanup]
  have hnav : Router.navigate parse cfg net s path =
      Router.loadContent parse cfg net { s with currentPath := path } path true := by
    simp [Router.navigate, hne]
  refine ⟨hnav, hpres, ?_⟩
  rw [hnav, hpres]

/-- C10 witness: after navigating from the root to the donate path over a
network that always answers with an error status, the recorded current
path is the donate path, not the root. -/
theorem c10_currentPath_no_rollback_witness :
    (Router.navigate Router.sampleParse Router.sampleCfg Router.failNet
      Router.sampleState "/donate").1.currentPath = "/donate" :=
  (c10_currentPath_no_rollback Router.sampleParse Router.sampleCfg Router.failNet
    Router.sampleState "/donate" (by decide)
    (Or.inr ⟨{ ok := false, body := "" }, rfl, rfl⟩)).2.2
